import Mathlib

/-!
Verification development for the PolicyPilot retrieval-augmented answering
pipeline.  The Python sources are shallowly embedded: text is `List Char`,
Python floats are modelled as exact rationals, Python dictionaries become
structures, fallible collaborator calls become `Except`-valued fields, and
the regular expressions used for refusal detection are embedded as a small
executable token matcher covering exactly the constructs those patterns use
(`literal`, `.`, `.*`, `\s+`, with alternation/optional groups expanded into
explicit variants).
-/

namespace PolicyPilot

attribute [local semireducible] Rat.mul Rat.inv Rat.add Rat.sub

deriving instance DecidableEq for Except

/-- Python strings are modelled as lists of characters. -/
abbrev Str := List Char

/-- Coerce a Lean string literal into the `Str` model. -/
def str (s : String) : Str := s.data

/-- The whitespace characters stripped by Python `str.strip()` (ASCII model). -/
def pyIsSpace (c : Char) : Bool :=
  c == ' ' || c == '\t' || c == '\n' || c == '\r' || c == '\x0b' || c == '\x0c'

/-- Python `str.lstrip()`. -/
def stripL (s : Str) : Str := s.dropWhile pyIsSpace

/-- Python `str.rstrip()`. -/
def stripR (s : Str) : Str := (s.reverse.dropWhile pyIsSpace).reverse

/-- Python `str.strip()`. -/
def pyStrip (s : Str) : Str := stripR (stripL s)

/-- The uppercase-to-lowercase table of the ASCII model of `str.lower()`. -/
def lowerPairs : List (Char × Char) :=
  [('A', 'a'), ('B', 'b'), ('C', 'c'), ('D', 'd'), ('E', 'e'), ('F', 'f'),
   ('G', 'g'), ('H', 'h'), ('I', 'i'), ('J', 'j'), ('K', 'k'), ('L', 'l'),
   ('M', 'm'), ('N', 'n'), ('O', 'o'), ('P', 'p'), ('Q', 'q'), ('R', 'r'),
   ('S', 's'), ('T', 't'), ('U', 'u'), ('V', 'v'), ('W', 'w'), ('X', 'x'),
   ('Y', 'y'), ('Z', 'z')]

/-- ASCII model of Python `str.lower()` applied to one character. -/
def lowerChar (c : Char) : Char :=
  match lowerPairs.find? (fun p => p.1 == c) with
  | some p => p.2
  | none => c

/-- Python `str.lower()` (ASCII model). -/
def toLowerStr (s : Str) : Str := s.map lowerChar

/-- A regex word character `\w` (ASCII model): alphanumeric or underscore. -/
def isWordChar (c : Char) : Bool := c.isAlphanum || c == '_'

/-- Accumulator-based scanner extracting maximal runs of word characters.
The accumulator holds the current (reversed) partial token. -/
def wordTokensAux : Str → Str → List Str
  | [], acc => if acc.isEmpty then [] else [acc.reverse]
  | c :: cs, acc =>
    if isWordChar c then wordTokensAux cs (c :: acc)
    else if acc.isEmpty then wordTokensAux cs []
    else acc.reverse :: wordTokensAux cs []

/-- Python `re.findall(r"\b\w+\b", s)`: the maximal word-character runs of `s`. -/
def findallWords (s : Str) : List Str := wordTokensAux s []

/-- `ChunkReranker._tokenize`: `re.findall(r"\b\w+\b", text.lower())`. -/
def pyTokenize (s : Str) : List Str := findallWords (toLowerStr s)

/-- `ResponseValidator._STOP_WORDS` (response_validator.py). -/
def stopWords : List Str :=
  ["a", "an", "the", "is", "are", "was", "were", "be", "been", "being",
   "have", "has", "had", "do", "does", "did", "will", "would", "shall",
   "should", "may", "might", "must", "can", "could", "i", "me", "my",
   "we", "our", "you", "your", "he", "him", "his", "she", "her", "it",
   "its", "they", "them", "their", "what", "which", "who", "whom",
   "this", "that", "these", "those", "am", "at", "by", "for", "with",
   "about", "against", "between", "through", "during", "before",
   "after", "above", "below", "to", "from", "up", "down", "in", "out",
   "on", "off", "over", "under", "again", "further", "then", "once",
   "here", "there", "when", "where", "why", "how", "all", "both",
   "each", "few", "more", "most", "other", "some", "such", "no", "nor",
   "not", "only", "own", "same", "so", "than", "too", "very", "s", "t",
   "just", "don", "now", "also", "of", "and", "or", "but", "if"].map String.data

/-- `ResponseValidator._content_words`: lowercased word tokens with stop
words removed and length greater than 2. -/
def contentWords (text : Str) : List Str :=
  (findallWords (toLowerStr text)).filter (fun t => t ∉ stopWords ∧ 2 < t.length)

/-- `ResponseValidator._compute_grounding`: fraction of distinct answer
content words that also occur among the context content words. -/
def computeGrounding (answer : Str) (chunks : List Str) : ℚ :=
  let answerWords := (contentWords answer).dedup
  if answerWords.isEmpty then 0
  else
    let contextWords := (chunks.map contentWords).flatten.dedup
    if contextWords.isEmpty then 0
    else ((answerWords.filter (· ∈ contextWords)).length : ℚ) / answerWords.length

/-- Tokens of the embedded regular-expression fragment used by the refusal
patterns: a literal string, `.` (any char except newline), `.*`, and `\s+`. -/
inductive RTok : Type
  | lit (s : Str)
  | anyOne
  | anyStar
  | wsPlus
deriving DecidableEq

/-- Python `\s` (ASCII model), as used by the refusal patterns. -/
def reSpace (c : Char) : Bool :=
  c == ' ' || c == '\t' || c == '\n' || c == '\r' || c == '\x0b' || c == '\x0c'

/-- Does the token sequence match a prefix of `s` (with backtracking)? -/
def toksMatch : List RTok → Str → Bool
  | [], _ => true
  | RTok.lit l :: ts, s => l.isPrefixOf s && toksMatch ts (s.drop l.length)
  | RTok.anyOne :: ts, s =>
    match s with
    | [] => false
    | c :: cs => (c != '\n') && toksMatch ts cs
  | RTok.anyStar :: ts, s =>
    (List.range (s.length + 1)).any
      (fun k => (s.take k).all (· != '\n') && toksMatch ts (s.drop k))
  | RTok.wsPlus :: ts, s =>
    (List.range s.length).any
      (fun k => (s.take (k + 1)).all reSpace && toksMatch ts (s.drop (k + 1)))

/-- Python `re.search`: does the pattern match starting at some position? -/
def reSearch (pat : List RTok) (s : Str) : Bool :=
  (List.range (s.length + 1)).any (fun i => toksMatch pat (s.drop i))

/-- Minimal number of characters a token can consume. -/
def rtokMinLen : RTok → ℕ
  | RTok.lit l => l.length
  | RTok.anyOne => 1
  | RTok.anyStar => 0
  | RTok.wsPlus => 1

/-- Minimal number of characters a pattern can consume. -/
def patMinLen (ts : List RTok) : ℕ := (ts.map rtokMinLen).sum

/-- The refusal patterns of `ResponseValidator._is_llm_refusal`, with the
optional group and the alternations of the fourth and fifth patterns
expanded into explicit variants. -/
def refusalVariants : List (List RTok) :=
  [ [RTok.lit (str "sorry"), RTok.anyStar, RTok.lit (str "document"), RTok.anyStar,
     RTok.lit (str "does"), RTok.wsPlus, RTok.lit (str "not"), RTok.wsPlus,
     RTok.lit (str "contain")],
    [RTok.lit (str "sorry"), RTok.anyStar, RTok.lit (str "doesn"), RTok.anyOne,
     RTok.lit (str "t"), RTok.wsPlus, RTok.lit (str "contain"), RTok.wsPlus,
     RTok.lit (str "enough")],
    [RTok.lit (str "i"), RTok.wsPlus, RTok.lit (str "don"), RTok.anyOne,
     RTok.lit (str "t"), RTok.wsPlus, RTok.lit (str "have"), RTok.wsPlus,
     RTok.lit (str "enough"), RTok.wsPlus, RTok.lit (str "information")],
    [RTok.lit (str "the"), RTok.wsPlus, RTok.lit (str "document"), RTok.anyStar,
     RTok.lit (str "does"), RTok.wsPlus, RTok.lit (str "not"), RTok.wsPlus,
     RTok.lit (str "mention")],
    [RTok.lit (str "the"), RTok.wsPlus, RTok.lit (str "document"), RTok.anyStar,
     RTok.lit (str "does"), RTok.wsPlus, RTok.lit (str "not"), RTok.wsPlus,
     RTok.lit (str "contain")],
    [RTok.lit (str "the"), RTok.wsPlus, RTok.lit (str "document"), RTok.anyStar,
     RTok.lit (str "does"), RTok.wsPlus, RTok.lit (str "not"), RTok.wsPlus,
     RTok.lit (str "include")],
    [RTok.lit (str "the"), RTok.wsPlus, RTok.lit (str "provided"), RTok.wsPlus,
     RTok.lit (str "document"), RTok.anyStar, RTok.lit (str "does"), RTok.wsPlus,
     RTok.lit (str "not"), RTok.wsPlus, RTok.lit (str "mention")],
    [RTok.lit (str "the"), RTok.wsPlus, RTok.lit (str "provided"), RTok.wsPlus,
     RTok.lit (str "document"), RTok.anyStar, RTok.lit (str "does"), RTok.wsPlus,
     RTok.lit (str "not"), RTok.wsPlus, RTok.lit (str "contain")],
    [RTok.lit (str "the"), RTok.wsPlus, RTok.lit (str "provided"), RTok.wsPlus,
     RTok.lit (str "document"), RTok.anyStar, RTok.lit (str "does"), RTok.wsPlus,
     RTok.lit (str "not"), RTok.wsPlus, RTok.lit (str "include")],
    [RTok.lit (str "no"), RTok.wsPlus, RTok.lit (str "relevant"), RTok.wsPlus,
     RTok.lit (str "information"), RTok.wsPlus, RTok.lit (str "found")],
    [RTok.lit (str "no"), RTok.wsPlus, RTok.lit (str "relevant"), RTok.wsPlus,
     RTok.lit (str "data"), RTok.wsPlus, RTok.lit (str "found")],
    [RTok.lit (str "no"), RTok.wsPlus, RTok.lit (str "relevant"), RTok.wsPlus,
     RTok.lit (str "content"), RTok.wsPlus, RTok.lit (str "found")],
    [RTok.lit (str "cannot"), RTok.wsPlus, RTok.lit (str "answer"), RTok.anyStar,
     RTok.lit (str "based"), RTok.wsPlus, RTok.lit (str "on"), RTok.anyStar,
     RTok.lit (str "provided")] ]

/-- `ResponseValidator._is_llm_refusal`: search each refusal pattern in the
lowercased, stripped answer. -/
def isLlmRefusal (answer : Str) : Bool :=
  refusalVariants.any (fun p => reSearch p (pyStrip (toLowerStr answer)))

/-- The result dictionary produced by `ResponseValidator.validate`. -/
structure ValidationResult : Type where
  answer : Str
  isValid : Bool
  isGrounded : Bool
  groundingScore : ℚ
  confidence : Str
  citations : List Str
  flags : List Str
deriving DecidableEq

/-- `FALLBACK_ANSWER` (response_validator.py). -/
def fallbackAnswer : Str :=
  str "Sorry, this document does not contain enough information to answer that."

/-- `ResponseValidator._build_citations`: drop falsy entries and deduplicate
keeping the first occurrence. -/
def buildCitationsAux : List Str → List Str → List Str
  | [], _ => []
  | s :: rest, seen =>
    if s ≠ [] ∧ s ∉ seen then s :: buildCitationsAux rest (s :: seen)
    else buildCitationsAux rest seen

/-- `ResponseValidator._build_citations`. -/
def buildCitations (sources : List Str) : List Str := buildCitationsAux sources []

/-- Python `round` to an integer: round half to even. -/
def roundHalfEven (x : ℚ) : ℤ :=
  let f : ℤ := ⌊x⌋
  let r : ℚ := x - f
  if r < 1/2 then f
  else if 1/2 < r then f + 1
  else if f % 2 = 0 then f else f + 1

/-- Python `round(x, 4)` on the exact-rational model of floats. -/
def round4 (x : ℚ) : ℚ := (roundHalfEven (x * 10000) : ℚ) / 10000

/-- `ResponseValidator._fallback_result`. -/
def fallbackResult (flags : List Str) (sources : List Str)
    (groundingScore : ℚ) : ValidationResult :=
  ⟨fallbackAnswer, false, false, round4 groundingScore, str "none",
   buildCitations sources, flags⟩

/-- The citation line appended by `validate` when citations are present. -/
def citationLine (citations : List Str) : Str :=
  if citations.isEmpty then []
  else str "\n\n📄 Sources: " ++ List.intercalate (str ", ") citations

/-- `ResponseValidator.validate` (response_validator.py).  The unused
`query` parameter of the source is omitted.  `sources = []` models the
Python `None`/empty cases, which the source treats identically. -/
def validate (minGrounding : ℚ) (minAnswerLength : ℕ) (answer : Str)
    (contextChunks : List Str) (sources : List Str) : ValidationResult :=
  if answer.isEmpty ∨ (pyStrip answer).length < minAnswerLength then
    fallbackResult [str "empty_answer"] sources 0
  else if isLlmRefusal answer then
    ⟨fallbackAnswer, true, true, 1, str "high", [], [str "llm_refusal"]⟩
  else
    let groundingScore := computeGrounding answer contextChunks
    let flags0 : List Str :=
      if minGrounding ≤ groundingScore then [] else [str "low_grounding"]
    let confidence : Str :=
      if (2/5 : ℚ) ≤ groundingScore then str "high"
      else if (1/4 : ℚ) ≤ groundingScore then str "medium"
      else str "low"
    let flags : List Str :=
      if (2/5 : ℚ) ≤ groundingScore then flags0
      else if (1/4 : ℚ) ≤ groundingScore then flags0
      else flags0 ++ [str "low_confidence"]
    let citations := buildCitations sources
    ⟨pyStrip answer ++ citationLine citations, true, true, round4 groundingScore,
     confidence, citations, flags⟩

/-! ## Passage reranker (reranker.py) -/

/-- The Python `set(...)` of tokens used by `ChunkReranker._score_keyword`. -/
def tokenSet (s : Str) : Finset Str := (pyTokenize s).toFinset

/-- `ChunkReranker._score_keyword` for a single chunk: `0.6 · jaccard +
0.4 · termFrequency`, with the source's guards (all-zero scores when the
query has no tokens; `max(len, 1)` denominator; `if union` guard). -/
def scoreKeyword (query chunk : Str) : ℚ :=
  let qs := tokenSet query
  if qs = ∅ then 0
  else
    let chunkTokens := pyTokenize chunk
    let cs := chunkTokens.toFinset
    let jaccard : ℚ :=
      if qs ∪ cs = ∅ then 0
      else ((qs ∩ cs).card : ℚ) / ((qs ∪ cs).card : ℚ)
    let tf : ℚ :=
      ((∑ t ∈ qs, chunkTokens.count t : ℕ) : ℚ) / ((max chunkTokens.length 1 : ℕ) : ℚ)
    6/10 * jaccard + 4/10 * tf

/-- Jaccard similarity of the lowercase word-token sets, written as the
specification words it (for comparison with the source formula). -/
def jaccardSpec (q c : Str) : ℚ :=
  ((tokenSet q ∩ tokenSet c).card : ℚ) / ((tokenSet q ∪ tokenSet c).card : ℚ)

/-- Term-frequency score as the specification words it: count of query
tokens appearing in the candidate over the candidate token count. -/
def termFrequencySpec (q c : Str) : ℚ :=
  (((pyTokenize c).countP (fun t => t ∈ tokenSet q) : ℕ) : ℚ)
    / ((pyTokenize c).length : ℚ)

/-- The per-index score list `_score_keyword`/`_score_cross_encoder` build:
Python `enumerate` of the scores. -/
def enumScored (score : ℕ → ℚ) (n : ℕ) : List (ℕ × ℚ) :=
  (List.range n).map (fun i => (i, score i))

/-- Python `scored.sort(key=lambda x: x[1], reverse=True)`: a stable
descending sort on the score component, modelled by insertion sort. -/
def pySortDesc (l : List (ℕ × ℚ)) : List (ℕ × ℚ) :=
  l.insertionSort (fun a b => b.2 ≤ a.2)

/-- The `scored[: self.top_n]` slice of the sorted score list. -/
def topPairs (score : ℕ → ℚ) (n topN : ℕ) : List (ℕ × ℚ) :=
  (pySortDesc (enumScored score n)).take topN

/-- The indices of the chunks kept by `rerank`. -/
def topIdxOf (score : ℕ → ℚ) (n topN : ℕ) : List ℕ :=
  (topPairs score n topN).map Prod.fst

/-- Result of `ChunkReranker.rerank` (the `ranked_metadatas` key is omitted:
the orchestrator calls `rerank` without metadatas, so it is always `[]`). -/
structure RerankResult : Type where
  rankedChunks : List Str
  scores : List ℚ
deriving DecidableEq

/-- `ChunkReranker.rerank`, parameterized by the per-index scoring function
(keyword fallback or cross-encoder). -/
def rerankWith (score : ℕ → ℚ) (chunks : List Str) (topN : ℕ) : RerankResult :=
  if chunks.isEmpty then ⟨[], []⟩
  else if chunks.length ≤ topN then ⟨chunks, List.replicate chunks.length 1⟩
  else
    let top := topPairs score chunks.length topN
    ⟨top.map (fun p => chunks.getD p.1 []), top.map (fun p => p.2)⟩

/-- The per-index keyword score of a chunk list. -/
def kwScore (query : Str) (chunks : List Str) : ℕ → ℚ :=
  fun i => scoreKeyword query (chunks.getD i [])

/-- `ChunkReranker.rerank` with the deterministic keyword-fallback scorer
(the configuration used by the application: `use_cross_encoder=False`). -/
def rerankKeyword (query : Str) (chunks : List Str) (topN : ℕ) : RerankResult :=
  rerankWith (kwScore query chunks) chunks topN

/-- The lexicographic order that characterizes a stable descending sort of
an index-enumerated score list: strictly larger score first, original
index as tie break. -/
def lexLt (a b : ℕ × ℚ) : Prop := b.2 < a.2 ∨ (a.2 = b.2 ∧ a.1 < b.1)

/-! ## Conversation memory (conversation_memory.py) -/

/-- One question/answer exchange as handed to the formatter. -/
structure Turn : Type where
  question : Str
  answer : Str
deriving DecidableEq

/-- One verbatim "User: … / Assistant: …" block. -/
def renderTurn (t : Turn) : Str :=
  str "User: " ++ t.question ++ str "\n" ++ str "Assistant: " ++ t.answer ++ str "\n\n"

/-- The concatenated verbatim blocks of a window. -/
def renderTurns (h : List Turn) : Str := (h.map renderTurn).flatten

/-- The per-turn topic of `_summarize_history`: stripped question, truncated
to 77 characters plus an ellipsis when longer than 80. -/
def truncateTopic (q : Str) : Str :=
  let q' := pyStrip q
  if 80 < q'.length then q'.take 77 ++ str "..." else q'

/-- The bullet list built by `_summarize_history` (one bullet per turn). -/
def summaryTopics (h : List Turn) : List Str :=
  h.map (fun t => str "- Asked about: " ++ truncateTopic t.question)

/-- `ConversationMemory._summarize_history`. -/
def summarizeHistory (h : List Turn) : Str :=
  if h.isEmpty then str "No earlier conversation."
  else str "The user previously discussed:\n"
    ++ List.intercalate (str "\n") (summaryTopics h)

/-- Header of the fully-verbatim rendering. -/
def verbatimHeader : Str :=
  str "Conversation history (use this to resolve follow-up references):\n"

/-- Header of the verbatim tail in the summarized rendering. -/
def recentHeader : Str :=
  str "Recent conversation (use this to resolve follow-up references):\n"

/-- `ConversationMemory.format_history_context` with verbatim count `K`
(`max_history_items`) and summary threshold `thresh`. -/
def formatHistoryContext (K thresh : ℕ) (h : List Turn) : Str :=
  if h.isEmpty then []
  else if thresh < h.length then
    pyStrip (str "Summary of earlier conversation:\n"
      ++ summarizeHistory (h.take (h.length - K)) ++ str "\n\n"
      ++ recentHeader ++ renderTurns (h.drop (h.length - K)))
  else pyStrip (verbatimHeader ++ renderTurns h)

/-! ## History store reads (conversation_memory.py + database.py)

The chat-history table is modelled as a list of records in chronological
(append) order; `order_by(created_at.desc())` is modelled by `reverse`. -/

/-- One persisted `ChatHistory` row. -/
structure ChatRecord : Type where
  userId : ℕ
  question : Str
  answer : Str
  sources : List Str
  wasSuccessful : Bool
deriving DecidableEq

/-- The rows of one user that passed the `was_successful == True` filter,
in chronological order. -/
def successTurns (db : List ChatRecord) (uid : ℕ) : List ChatRecord :=
  db.filter (fun r => r.userId == uid && r.wasSuccessful)

/-- `ConversationMemory.get_recent_history`: most recent `limit` successful
rows, returned in chronological order. -/
def recentWindowRecords (db : List ChatRecord) (uid limit : ℕ) : List ChatRecord :=
  ((successTurns db uid).reverse.take limit).reverse

/-- `ConversationMemory.get_last_exchange`: the single most recent
successful row. -/
def lastTurnRecord (db : List ChatRecord) (uid : ℕ) : Option ChatRecord :=
  (successTurns db uid).getLast?

/-! ## Intent extraction (intent_extractor.py) -/

/-- The structured result of `IntentExtractor.extract`.  `personalInfo`
models the Python dict as an association list. -/
structure IntentResult : Type where
  intent : Str
  entities : List Str
  searchQuery : Str
  isFollowup : Bool
  personalInfo : List (Str × Str)
deriving DecidableEq

/-- The deterministic fallback of `IntentExtractor.extract`. -/
def intentFallback (query conversationHistory : Str) : IntentResult :=
  ⟨str "question", [], query, !conversationHistory.isEmpty, []⟩

/-- `IntentExtractor.extract`.  The external LLM call, markdown-fence
cleanup and JSON decode are modelled by `attempt`: `some r` is a
successfully parsed structured result, `none` is any extraction failure
(service error or malformed structured output), which the source maps to
the deterministic fallback.  The function is total: no failure escapes. -/
def extract (query conversationHistory : Str)
    (attempt : Option IntentResult) : IntentResult :=
  match attempt with
  | some r => r
  | none => intentFallback query conversationHistory

/-! ## Chain orchestrator (rag_chain.py) and query endpoint (main.py) -/

/-- Python exception payloads. -/
abbrev PyErr := Str

/-- The dictionary returned by `GroqLLMClient.generate_answer`, with each
key optional to model the defensive `dict.get` reads in the orchestrator. -/
structure GenResult : Type where
  answer : Option Str
  success : Option Bool
  message : Option Str
deriving DecidableEq

/-- One collaborator invocation recorded while the chain runs. -/
inductive Call : Type
  | updateMemory
  | formatUser
  | retrieval (searchQuery : Str)
  | generation (query context : Str)
  | save (wasSuccessful : Bool)
deriving DecidableEq

/-- The dictionary returned by `RAGChain._build_response`. -/
structure ChainResult : Type where
  answer : Str
  sources : List Str
  success : Bool
  message : Str
  intent : Str
  confidence : Str
  isGrounded : Bool
  flags : List Str
deriving DecidableEq

/-- `RAGChain._build_response`. -/
def buildResponse (answer : Str) (sources : List Str) (success : Bool)
    (message : Str) (intent : Str) (confidence : Str) (isGrounded : Bool)
    (flags : List Str) : ChainResult :=
  ⟨answer, sources, success, message, intent, confidence, isGrounded, flags⟩

/-- The numbered document block of `RAGChain._build_enriched_context`. -/
def docEntries (chunks : List Str) : Str :=
  List.intercalate (str "\n\n")
    (chunks.enum.map (fun p => str "Document " ++ (Nat.repr (p.1 + 1)).data
      ++ str ":\n" ++ pyStrip p.2))

/-- `RAGChain._build_enriched_context`. -/
def buildEnrichedContext (chunks : List Str) (historyContext userContext : Str) : Str :=
  List.intercalate (str "\n\n---\n\n")
    ((if userContext.isEmpty then [] else [str "[User Context]\n" ++ userContext])
      ++ (if historyContext.isEmpty then []
          else [str "[Conversation History]\n" ++ historyContext])
      ++ (if chunks.isEmpty then []
          else [str "[Retrieved Documents]\n" ++ docEntries chunks]))

/-- The external collaborators of one `RAGChain.run` invocation.  History
reads are total (the source catches their errors internally and degrades to
empty results); user-memory writes, user-context rendering, retrieval and
generation may raise, modelled as `Except`. -/
structure Collab : Type where
  recentHistory : List Turn
  lastExchange : Option Turn
  intentAttempt : Option IntentResult
  updateUserMemory : Except PyErr Unit
  userContext : Except PyErr Str
  retrieve : Str → Except PyErr (List Str × List Str)
  generate : Str → Str → Except PyErr GenResult

/-- Step 1 of `RAGChain.run`: the formatted history context, with the
application configuration `max_history_items = 5`, `summary_threshold = 8`. -/
def chainHistoryContext (c : Collab) : Str :=
  formatHistoryContext 5 8 c.recentHistory

/-- Step 2 of `RAGChain.run`: the resolved intent result. -/
def chainIntent (c : Collab) (query : Str) : IntentResult :=
  extract query (chainHistoryContext c) c.intentAttempt

/-- The context handed to the generation service on the greeting path
(step 4b), including the non-empty placeholder of the source. -/
def greetingPrompt (historyContext userContext : Str) : Str :=
  let ctx0 := buildEnrichedContext [] historyContext userContext
  if (pyStrip ctx0).isEmpty then str "(No documents or history available yet.)"
  else ctx0

/-- `RAGChain.run` with the application configuration (history window
`max_history_items = 5`, `summary_threshold = 8`, reranker `top_n = 3`,
validator `min_grounding_ratio = 0.10`, `min_answer_length = 10`).
Returns the list of collaborator calls made (the trace) together with the
result: `Except.error` means the Python exception propagates out of `run`.
Persistence (`_save_conversation`) never raises in the source, so `save`
appears only in the trace. -/
def runChain (c : Collab) (query : Str) : List Call × Except PyErr ChainResult :=
  let historyContext := chainHistoryContext c
  let ir := chainIntent c query
  let t3 : List Call := if ir.personalInfo.isEmpty then [] else [Call.updateMemory]
  let step3 : Except PyErr Unit :=
    if ir.personalInfo.isEmpty then Except.ok () else c.updateUserMemory
  match step3 with
  | Except.error e => (t3, Except.error e)
  | Except.ok _ =>
    match c.userContext with
    | Except.error e => (t3 ++ [Call.formatUser], Except.error e)
    | Except.ok userContext =>
      let t4 := t3 ++ [Call.formatUser]
      if ir.intent = str "greeting" then
        let ctx := greetingPrompt historyContext userContext
        match c.generate query ctx with
        | Except.error e => (t4 ++ [Call.generation query ctx], Except.error e)
        | Except.ok g =>
          let answer := g.answer.getD (str "Hello! How can I help you?")
          (t4 ++ [Call.generation query ctx, Call.save true],
           Except.ok (buildResponse answer [] true (str "Greeting handled")
             ir.intent (str "high") true [str "greeting"]))
      else
        match c.retrieve ir.searchQuery with
        | Except.error e => (t4 ++ [Call.retrieval ir.searchQuery], Except.error e)
        | Except.ok (chunks, sources) =>
          let t5 := t4 ++ [Call.retrieval ir.searchQuery]
          if chunks.isEmpty && historyContext.isEmpty then
            (t5 ++ [Call.save false],
             Except.ok (buildResponse fallbackAnswer [] true
               (str "No relevant information found") ir.intent (str "high") true
               [str "no_documents"]))
          else
            let rankedChunks := if chunks.isEmpty then []
              else (rerankKeyword ir.searchQuery chunks 3).rankedChunks
            let ctx := buildEnrichedContext rankedChunks historyContext userContext
            match c.generate query ctx with
            | Except.error e => (t5 ++ [Call.generation query ctx], Except.error e)
            | Except.ok g =>
              let rawAnswer := g.answer.getD fallbackAnswer
              let corpus := rankedChunks
                ++ (if historyContext.isEmpty then [] else [historyContext])
                ++ (if userContext.isEmpty then [] else [userContext])
              let v := validate (1/10) 10 rawAnswer corpus sources
              (t5 ++ [Call.generation query ctx, Call.save v.isValid],
               Except.ok (buildResponse v.answer sources (g.success.getD false)
                 (g.message.getD []) ir.intent v.confidence v.isGrounded v.flags))

/-- The response model of the `/chat/query` endpoint. -/
structure QueryResponse : Type where
  answer : Str
  sources : List Str
  success : Bool
  message : Str
deriving DecidableEq

/-- The fallback sentence hard-coded in the `query_documents` exception
handler (main.py) — note the contraction, unlike `FALLBACK_ANSWER`. -/
def variantFallback : Str :=
  str "Sorry, this document doesn" ++ ['\''] ++
    str "t contain enough information to answer that."

/-- `query_documents` (main.py): the endpoint wrapping `RAGChain.run`.
`Except.error` models an `HTTPException` propagating to the framework;
every other outcome, including any exception escaping `RAGChain.run`, is
turned into a `QueryResponse`. -/
def queryDocuments (docCount : ℕ) (c : Collab) (rawQuery : Str) :
    Except Str QueryResponse :=
  if (pyStrip rawQuery).isEmpty then Except.error (str "Query cannot be empty")
  else if docCount = 0 then
    Except.ok ⟨str "Please upload a PDF document first before asking questions.",
      [], true, str "No documents available"⟩
  else
    match (runChain c (pyStrip rawQuery)).2 with
    | Except.ok r => Except.ok ⟨r.answer, r.sources, r.success, r.message⟩
    | Except.error e =>
      Except.ok ⟨variantFallback, [], false, str "Error occurred: " ++ e⟩

/-! ## Helper lemmas -/

theorem pyIsSpace_lowerChar (c : Char) : pyIsSpace (lowerChar c) = pyIsSpace c := by
  unfold lowerChar
  cases hf : lowerPairs.find? (fun p => p.1 == c) with
  | none => rfl
  | some p =>
    have hmem : p ∈ lowerPairs := List.mem_of_find?_eq_some hf
    have hc : p.1 = c := by simpa using List.find?_some hf
    subst hc
    have hall : ∀ q ∈ lowerPairs, pyIsSpace q.2 = pyIsSpace q.1 := by decide
    exact hall p hmem

theorem stripL_toLowerStr (s : Str) : stripL (toLowerStr s) = toLowerStr (stripL s) := by
  unfold stripL toLowerStr
  rw [List.dropWhile_map]
  have : (pyIsSpace ∘ lowerChar) = pyIsSpace := funext pyIsSpace_lowerChar
  rw [this]

theorem stripR_toLowerStr (s : Str) : stripR (toLowerStr s) = toLowerStr (stripR s) := by
  unfold stripR toLowerStr
  rw [← List.map_reverse, List.dropWhile_map, ← List.map_reverse]
  have : (pyIsSpace ∘ lowerChar) = pyIsSpace := funext pyIsSpace_lowerChar
  rw [this]

theorem pyStrip_toLowerStr (s : Str) : pyStrip (toLowerStr s) = toLowerStr (pyStrip s) := by
  unfold pyStrip
  rw [stripL_toLowerStr, stripR_toLowerStr]

theorem length_pyStrip_toLowerStr (s : Str) :
    (pyStrip (toLowerStr s)).length = (pyStrip s).length := by
  rw [pyStrip_toLowerStr]
  exact List.length_map _ _

theorem toksMatch_length : ∀ (ts : List RTok) (s : Str),
    toksMatch ts s = true → patMinLen ts ≤ s.length := by
  intro ts
  induction ts with
  | nil => intro s _; simp [patMinLen]
  | cons t ts ih =>
    intro s h
    cases t with
    | lit l =>
      simp only [toksMatch, Bool.and_eq_true] at h
      obtain ⟨hpre, hrest⟩ := h
      have h1 : l.length ≤ s.length :=
        (List.isPrefixOf_iff_prefix.mp hpre).length_le
      have h2 := ih _ hrest
      rw [List.length_drop] at h2
      simp only [patMinLen, List.map_cons, List.sum_cons, rtokMinLen] at *
      omega
    | anyOne =>
      cases s with
      | nil => simp [toksMatch] at h
      | cons c cs =>
        simp only [toksMatch, Bool.and_eq_true] at h
        have h2 := ih _ h.2
        simp only [patMinLen, List.map_cons, List.sum_cons, rtokMinLen,
          List.length_cons] at *
        omega
    | anyStar =>
      simp only [toksMatch, List.any_eq_true, List.mem_range,
        Bool.and_eq_true] at h
      obtain ⟨k, _, _, hrest⟩ := h
      have h2 := ih _ hrest
      rw [List.length_drop] at h2
      simp only [patMinLen, List.map_cons, List.sum_cons, rtokMinLen] at *
      omega
    | wsPlus =>
      simp only [toksMatch, List.any_eq_true, List.mem_range,
        Bool.and_eq_true] at h
      obtain ⟨k, hk, _, hrest⟩ := h
      have h2 := ih _ hrest
      rw [List.length_drop] at h2
      simp only [patMinLen, List.map_cons, List.sum_cons, rtokMinLen] at *
      omega

theorem reSearch_length (pat : List RTok) (s : Str)
    (h : reSearch pat s = true) : patMinLen pat ≤ s.length := by
  simp only [reSearch, List.any_eq_true, List.mem_range] at h
  obtain ⟨i, _, hm⟩ := h
  have := toksMatch_length pat _ hm
  rw [List.length_drop] at this
  omega

theorem isLlmRefusal_length {a : Str} (h : isLlmRefusal a = true) :
    22 ≤ (pyStrip a).length := by
  simp only [isLlmRefusal, List.any_eq_true] at h
  obtain ⟨p, hp, hs⟩ := h
  have h1 := reSearch_length p _ hs
  rw [length_pyStrip_toLowerStr] at h1
  have h2 : 22 ≤ patMinLen p := by
    simp only [refusalVariants, List.mem_cons, List.not_mem_nil, or_false] at hp
    rcases hp with rfl | rfl | rfl | rfl | rfl | rfl | rfl | rfl | rfl | rfl |
      rfl | rfl | rfl <;> decide
  omega

/-! ## C7: refusals are always validated as grounded -/

/-- C7: for every answer matching one of the refusal patterns, and for
every grounding corpus and sources list, `validate` (with the application's
`min_answer_length = 10` and any grounding threshold) returns the canonical
fallback text with `is_valid = true`, `is_grounded = true`,
`confidence = high` and `flags = [llm_refusal]`, regardless of corpus
content. -/
theorem validate_refusal (minGrounding : ℚ) (answer : Str)
    (contextChunks : List Str) (sources : List Str)
    (h : isLlmRefusal answer = true) :
    validate minGrounding 10 answer contextChunks sources
      = ⟨fallbackAnswer, true, true, 1, str "high", [], [str "llm_refusal"]⟩ := by
  have hlen : 22 ≤ (pyStrip answer).length := isLlmRefusal_length h
  have hne : ¬ answer.isEmpty = true := by
    intro hcon
    rw [List.isEmpty_iff] at hcon
    subst hcon
    simp [pyStrip, stripL, stripR] at hlen
  unfold validate
  rw [if_neg, if_pos h]
  intro hcon
  rcases hcon with hcon | hcon
  · exact hne hcon
  · omega

/-- Witness for C7 at the canonical refusal sentence and an unrelated
corpus. -/
theorem validate_refusal_witness :
    isLlmRefusal fallbackAnswer = true
    ∧ validate (1/10) 10 fallbackAnswer
        [str "totally unrelated corpus text"] [str "a.pdf"]
      = ⟨fallbackAnswer, true, true, 1, str "high", [], [str "llm_refusal"]⟩ :=
  ⟨by decide,
   validate_refusal (1/10) fallbackAnswer
     [str "totally unrelated corpus text"] [str "a.pdf"] (by decide)⟩

/-! ## C1: the grounding threshold decision -/

/-- C1 counterexample: a non-empty, non-refusal answer whose grounding
score is 0, strictly below the threshold 1/10, yet the returned
`is_grounded` is `true` — so `is_grounded` is not
`grounding_score ≥ min_grounding_ratio` as claimed. -/
theorem validate_isGrounded_cex :
    (validate (1/10) 10 (str "zebra painting melodies")
        [str "quantum flux"] []).isGrounded = true
    ∧ (validate (1/10) 10 (str "zebra painting melodies")
        [str "quantum flux"] []).groundingScore = 0
    ∧ isLlmRefusal (str "zebra painting melodies") = false
    ∧ 10 ≤ (str "zebra painting melodies").length
    ∧ ¬ ((1/10 : ℚ) ≤ 0) := by
  refine ⟨by decide, by decide, by decide, by decide, by decide⟩

/-- C1 amended: for every non-empty, non-refusal answer of sufficient
length, the returned `is_grounded` is always `true`; the comparison
`grounding_score ≥ min_grounding_ratio` controls only the `low_grounding`
flag (with `low_confidence` additionally flagged below 1/4), and the answer
text is never replaced by the fallback — it is the stripped answer plus the
citation line. -/
theorem validate_isGrounded_amended (minGrounding : ℚ) (minLen : ℕ)
    (answer : Str) (chunks : List Str) (sources : List Str)
    (h1 : answer.isEmpty = false)
    (h2 : ¬ (pyStrip answer).length < minLen)
    (h3 : isLlmRefusal answer = false) :
    (validate minGrounding minLen answer chunks sources).isGrounded = true
    ∧ ((str "low_grounding")
        ∈ (validate minGrounding minLen answer chunks sources).flags
       ↔ ¬ minGrounding ≤ computeGrounding answer chunks)
    ∧ (validate minGrounding minLen answer chunks sources).answer
        = pyStrip answer ++ citationLine (buildCitations sources) := by
  unfold validate
  rw [if_neg, if_neg]
  · dsimp only
    refine ⟨rfl, ?_, rfl⟩
    by_cases hg : minGrounding ≤ computeGrounding answer chunks
    · split_ifs <;> simp [hg]
      decide
    · split_ifs <;> simp [hg]
  · rw [h3]
    exact Bool.false_ne_true
  · intro hcon
    rcases hcon with hcon | hcon
    · rw [h1] at hcon
      exact Bool.false_ne_true hcon
    · exact h2 hcon

/-- Witness for C1 amended: a low-scoring answer keeps its own text and
gains the `low_grounding` flag while `is_grounded` is still `true`. -/
theorem validate_isGrounded_amended_witness :
    (validate (1/10) 10 (str "crimson lantern whisper voyage")
        [str "unrelated database schema"] []).isGrounded = true
    ∧ ((str "low_grounding")
        ∈ (validate (1/10) 10 (str "crimson lantern whisper voyage")
            [str "unrelated database schema"] []).flags
       ↔ ¬ (1/10 : ℚ) ≤ computeGrounding (str "crimson lantern whisper voyage")
            [str "unrelated database schema"])
    ∧ (validate (1/10) 10 (str "crimson lantern whisper voyage")
        [str "unrelated database schema"] []).answer
        = pyStrip (str "crimson lantern whisper voyage")
          ++ citationLine (buildCitations []) :=
  validate_isGrounded_amended (1/10) 10 (str "crimson lantern whisper voyage")
    [str "unrelated database schema"] [] (by decide) (by decide) (by decide)

/-! ## C9: deterministic intent-extraction fallback -/

/-- C9: on any extraction failure (malformed structured output or service
error, both modelled by a `none` attempt) the resolver returns exactly the
deterministic fallback — intent `question`, the current query unchanged as
search query, `is_followup` true iff the history context is non-empty, and
empty personal attributes — and, being a total function, never raises. -/
theorem extract_failure_fallback (query historyContext : Str) :
    extract query historyContext none
      = ⟨str "question", [], query, !historyContext.isEmpty, []⟩
    ∧ ((extract query historyContext none).isFollowup = true
        ↔ historyContext ≠ []) := by
  refine ⟨rfl, ?_⟩
  show (!historyContext.isEmpty) = true ↔ historyContext ≠ []
  simp

/-! ## C8: history-window formatting -/

/-- C8: an empty window formats to the empty string; a non-empty window of
at most `summary_threshold` turns renders verbatim under the plain history
header; a longer window renders the summary of `window[:-K]` followed by
the newest `K` turns verbatim; summary bullets truncate each question to at
most 80 characters, with an ellipsis exactly when the stripped question
exceeds 80 characters, one bullet per summarized turn. -/
theorem format_history_contract (K thresh : ℕ) (h : List Turn) :
    formatHistoryContext K thresh [] = []
    ∧ (h ≠ [] → h.length ≤ thresh →
        formatHistoryContext K thresh h
          = pyStrip (verbatimHeader ++ renderTurns h))
    ∧ (thresh < h.length →
        formatHistoryContext K thresh h
          = pyStrip (str "Summary of earlier conversation:\n"
              ++ summarizeHistory (h.take (h.length - K)) ++ str "\n\n"
              ++ recentHeader ++ renderTurns (h.drop (h.length - K))))
    ∧ (∀ q : Str, (truncateTopic q).length ≤ 80)
    ∧ (∀ q : Str, 80 < (pyStrip q).length →
        truncateTopic q = (pyStrip q).take 77 ++ str "...")
    ∧ (∀ l : List Turn, (summaryTopics l).length = l.length) := by
  refine ⟨rfl, ?_, ?_, ?_, ?_, ?_⟩
  · intro hne hle
    unfold formatHistoryContext
    rw [if_neg, if_neg (not_lt.mpr hle)]
    simpa using hne
  · intro hlt
    unfold formatHistoryContext
    rw [if_neg, if_pos hlt]
    have : h ≠ [] := by
      intro hcon
      subst hcon
      simp at hlt
    simpa using this
  · intro q
    unfold truncateTopic
    dsimp only
    split_ifs with hq
    · rw [List.length_append, List.length_take]
      have : (str "...").length = 3 := rfl
      omega
    · omega
  · intro q hq
    unfold truncateTopic
    dsimp only
    rw [if_pos hq]
  · intro l
    unfold summaryTopics
    exact List.length_map _ _

/-- Witness for C8 at the spec's boundary: with threshold 8 and verbatim
count 5, an 8-turn window renders fully verbatim while a 9-turn window
summarizes the oldest 4 turns and renders the newest 5 verbatim; a
100-character question is truncated with an ellipsis. -/
theorem format_history_contract_witness :
    formatHistoryContext 5 8 (List.replicate 8 (⟨str "q", str "a"⟩ : Turn))
      = pyStrip (verbatimHeader
          ++ renderTurns (List.replicate 8 (⟨str "q", str "a"⟩ : Turn)))
    ∧ formatHistoryContext 5 8 (List.replicate 9 (⟨str "q", str "a"⟩ : Turn))
      = pyStrip (str "Summary of earlier conversation:\n"
          ++ summarizeHistory ((List.replicate 9 (⟨str "q", str "a"⟩ : Turn)).take
              ((List.replicate 9 (⟨str "q", str "a"⟩ : Turn)).length - 5))
          ++ str "\n\n" ++ recentHeader
          ++ renderTurns ((List.replicate 9 (⟨str "q", str "a"⟩ : Turn)).drop
              ((List.replicate 9 (⟨str "q", str "a"⟩ : Turn)).length - 5)))
    ∧ truncateTopic (List.replicate 100 'x')
      = (pyStrip (List.replicate 100 'x')).take 77 ++ str "..." :=
  ⟨(format_history_contract 5 8
      (List.replicate 8 (⟨str "q", str "a"⟩ : Turn))).2.1 (by decide) (by decide),
   (format_history_contract 5 8
      (List.replicate 9 (⟨str "q", str "a"⟩ : Turn))).2.2.1 (by decide),
   (format_history_contract 5 8 []).2.2.2.2.1
      (List.replicate 100 'x') (by decide)⟩

/-! ## C2: chain-wide exception degradation -/

/-- C2 counterexample: when retrieval raises, the returned answer is the
endpoint's contraction variant of the fallback sentence with
`success = false` — not the canonical `FALLBACK_ANSWER` constant, which
differs textually. -/
theorem orchestrator_exception_cex :
    queryDocuments 1
      ⟨[], none, none, Except.ok (), Except.ok [],
        fun _ => Except.error (str "boom"),
        fun _ _ => Except.ok ⟨none, none, none⟩⟩
      (str "what is x")
      = Except.ok ⟨variantFallback, [], false, str "Error occurred: boom"⟩
    ∧ variantFallback ≠ fallbackAnswer := by
  exact ⟨by decide, by decide⟩

/-- C2 amended: any exception escaping `RAGChain.run` (which itself has no
handler) is caught by the `query_documents` wrapper, which returns
`success = false` and the fixed fallback sentence — the contraction variant
hard-coded in main.py rather than the canonical `FALLBACK_ANSWER` — and
never re-raises. -/
theorem orchestrator_exception_amended (docCount : ℕ) (c : Collab)
    (rawQuery : Str) (e : PyErr)
    (h1 : (pyStrip rawQuery).isEmpty = false) (h2 : docCount ≠ 0)
    (h3 : (runChain c (pyStrip rawQuery)).2 = Except.error e) :
    queryDocuments docCount c rawQuery
      = Except.ok ⟨variantFallback, [], false, str "Error occurred: " ++ e⟩ := by
  unfold queryDocuments
  rw [if_neg, if_neg h2, h3]
  rw [h1]
  exact Bool.false_ne_true

/-- Witness for C2 amended at a failing retrieval collaborator. -/
theorem orchestrator_exception_amended_witness :
    queryDocuments 2
      ⟨[], none, none, Except.ok (), Except.ok [],
        fun _ => Except.error (str "db down"),
        fun _ _ => Except.ok ⟨none, none, none⟩⟩
      (str "list the rules")
      = Except.ok ⟨variantFallback, [], false,
          str "Error occurred: " ++ str "db down"⟩ :=
  orchestrator_exception_amended 2
    ⟨[], none, none, Except.ok (), Except.ok [],
      fun _ => Except.error (str "db down"),
      fun _ _ => Except.ok ⟨none, none, none⟩⟩
    (str "list the rules") (str "db down") (by decide) (by decide) (by decide)

/-! ## C4: greeting short-circuit -/

/-- C4: whenever the resolved intent is `greeting`, the chain never calls
the retrieval step — under any collaborator outcomes — and when the
preceding steps succeed it sends the generation service a context built
from history and user attributes only (no retrieved documents) and returns
a result with empty sources, `confidence = high`, `is_grounded = true` and
`flags = [greeting]`. -/
theorem greeting_short_circuit (c : Collab) (query : Str)
    (hint : (chainIntent c query).intent = str "greeting") :
    (∀ sq, Call.retrieval sq ∉ (runChain c query).1)
    ∧ (∀ u g,
        ((chainIntent c query).personalInfo = [] ∨ c.updateUserMemory = Except.ok ())
        → c.userContext = Except.ok u
        → c.generate query (greetingPrompt (chainHistoryContext c) u) = Except.ok g
        → (runChain c query).2 = Except.ok
              ⟨g.answer.getD (str "Hello! How can I help you?"), [], true,
               str "Greeting handled", str "greeting", str "high", true,
               [str "greeting"]⟩
          ∧ Call.generation query (greetingPrompt (chainHistoryContext c) u)
              ∈ (runChain c query).1) := by
  constructor
  · intro sq
    unfold runChain
    dsimp only
    split
    · split_ifs <;> simp
    · split
      · split_ifs <;> simp
      · rw [if_pos hint]
        split
        · split_ifs <;> simp
        · split_ifs <;> simp
  · intro u g hm hu hg
    have hstep : (if (chainIntent c query).personalInfo.isEmpty then Except.ok ()
        else c.updateUserMemory) = Except.ok () := by
      rcases hm with hm | hm
      · rw [if_pos]
        rw [hm]
        rfl
      · split_ifs <;> simp [hm]
    unfold runChain
    dsimp only
    rw [hstep, hu]
    dsimp only
    rw [if_pos hint, hg]
    constructor
    · dsimp only [buildResponse]
      rw [hint]
    · simp

/-- Witness for C4: a concrete greeting run never hits retrieval and
returns the forced-high-confidence greeting result. -/
theorem greeting_short_circuit_witness :
    (Call.retrieval (str "hi")
      ∉ (runChain
          ⟨[], none, some ⟨str "greeting", [], str "hi", false, []⟩,
           Except.ok (), Except.ok [],
           fun _ => Except.error (str "unused"),
           fun _ _ => Except.ok ⟨some (str "Hello there!"), some true, some (str "ok")⟩⟩
          (str "hi")).1)
    ∧ (runChain
          ⟨[], none, some ⟨str "greeting", [], str "hi", false, []⟩,
           Except.ok (), Except.ok [],
           fun _ => Except.error (str "unused"),
           fun _ _ => Except.ok ⟨some (str "Hello there!"), some true, some (str "ok")⟩⟩
          (str "hi")).2
        = Except.ok ⟨str "Hello there!", [], true, str "Greeting handled",
            str "greeting", str "high", true, [str "greeting"]⟩ :=
  ⟨(greeting_short_circuit _ (str "hi") (by decide)).1 (str "hi"),
   ((greeting_short_circuit _ (str "hi") (by decide)).2 []
      ⟨some (str "Hello there!"), some true, some (str "ok")⟩
      (Or.inl (by decide)) (by decide) (by decide)).1⟩

/-! ## C3: no-material short-circuit -/

/-- C3: when retrieval returns zero passages and the formatted history
context is empty, the chain returns the canonical fallback with a
`no_documents` flag and never calls the generation service; when retrieval
returns zero passages but history is non-empty, the chain continues and
the generation service is called with the history-and-user context. -/
theorem no_material_short_circuit (c : Collab) (query : Str) (u : Str)
    (srcs : List Str)
    (hint : ¬ (chainIntent c query).intent = str "greeting")
    (hm : (chainIntent c query).personalInfo = [] ∨ c.updateUserMemory = Except.ok ())
    (hu : c.userContext = Except.ok u)
    (hr : c.retrieve (chainIntent c query).searchQuery = Except.ok ([], srcs)) :
    (chainHistoryContext c = [] →
        (runChain c query).2 = Except.ok
            ⟨fallbackAnswer, [], true, str "No relevant information found",
             (chainIntent c query).intent, str "high", true, [str "no_documents"]⟩
        ∧ ∀ q ctx, Call.generation q ctx ∉ (runChain c query).1)
    ∧ (chainHistoryContext c ≠ [] →
        Call.generation query (buildEnrichedContext [] (chainHistoryContext c) u)
          ∈ (runChain c query).1) := by
  have hstep : (if (chainIntent c query).personalInfo.isEmpty then Except.ok ()
      else c.updateUserMemory) = Except.ok () := by
    rcases hm with hm | hm
    · rw [if_pos]
      rw [hm]
      rfl
    · split_ifs <;> simp [hm]
  constructor
  · intro hhc
    unfold runChain
    dsimp only
    rw [hstep, hu]
    dsimp only
    rw [if_neg hint, hr]
    dsimp only
    rw [hhc]
    constructor
    · rfl
    · intro q ctx
      split_ifs <;> simp_all
  · intro hhc
    have hcond : (List.isEmpty ([] : List Str)
        && (chainHistoryContext c).isEmpty) = false := by
      simp [List.isEmpty_iff, hhc]
    unfold runChain
    dsimp only
    rw [hstep, hu]
    dsimp only
    rw [if_neg hint, hr]
    dsimp only
    rw [hcond, if_neg Bool.false_ne_true]
    have hre : (if ([] : List Str).isEmpty then ([] : List Str)
        else (rerankKeyword (chainIntent c query).searchQuery [] 3).rankedChunks)
        = [] := rfl
    rw [hre]
    cases hg : c.generate query (buildEnrichedContext [] (chainHistoryContext c) u) with
    | error e => split_ifs <;> simp
    | ok g => split_ifs <;> simp

/-- Witness for C3: empty retrieval with empty history short-circuits to
the canonical fallback without a generation call; empty retrieval with a
one-turn history still reaches the generation service. -/
theorem no_material_short_circuit_witness :
    ((runChain
        ⟨[], none, none, Except.ok (), Except.ok [],
         fun _ => Except.ok ([], []),
         fun _ _ => Except.ok ⟨some (str "unused"), some true, some (str "ok")⟩⟩
        (str "what is rule 7")).2
      = Except.ok ⟨fallbackAnswer, [], true, str "No relevant information found",
          str "question", str "high", true, [str "no_documents"]⟩
    ∧ (∀ q ctx, Call.generation q ctx
        ∉ (runChain
            ⟨[], none, none, Except.ok (), Except.ok [],
             fun _ => Except.ok ([], []),
             fun _ _ => Except.ok ⟨some (str "unused"), some true, some (str "ok")⟩⟩
            (str "what is rule 7")).1))
    ∧ Call.generation (str "tell me more")
        (buildEnrichedContext []
          (chainHistoryContext
            ⟨[⟨str "what is rule 7", str "rule 7 says no parking"⟩], none, none,
             Except.ok (), Except.ok [],
             fun _ => Except.ok ([], []),
             fun _ _ => Except.ok ⟨some (str "more detail"), some true, some (str "ok")⟩⟩) [])
        ∈ (runChain
            ⟨[⟨str "what is rule 7", str "rule 7 says no parking"⟩], none, none,
             Except.ok (), Except.ok [],
             fun _ => Except.ok ([], []),
             fun _ _ => Except.ok ⟨some (str "more detail"), some true, some (str "ok")⟩⟩
            (str "tell me more")).1 :=
  ⟨(no_material_short_circuit _ (str "what is rule 7") [] []
      (by decide) (Or.inl (by decide)) (by decide) (by decide)).1 (by decide),
   (no_material_short_circuit _ (str "tell me more") [] []
      (by decide) (Or.inl (by decide)) (by decide) (by decide)).2 (by decide)⟩

/-! ## C10: failed fallback turns are invisible to later history reads -/

/-- C10: the no-material early exit persists the turn with
`was_successful = false` while the returned result reports
`success = true`; both history reads (`recentWindow` and `lastTurn`)
filter on `was_successful = true`, so such fallback turns never appear in
any later history window or last-exchange lookup. -/
theorem fallback_turn_invisible (c : Collab) (query : Str) (u : Str)
    (srcs : List Str)
    (hint : ¬ (chainIntent c query).intent = str "greeting")
    (hm : (chainIntent c query).personalInfo = [] ∨ c.updateUserMemory = Except.ok ())
    (hu : c.userContext = Except.ok u)
    (hr : c.retrieve (chainIntent c query).searchQuery = Except.ok ([], srcs))
    (hhc : chainHistoryContext c = []) :
    Call.save false ∈ (runChain c query).1
    ∧ (∃ r, (runChain c query).2 = Except.ok r ∧ r.success = true)
    ∧ (∀ db uid limit rec, rec ∈ recentWindowRecords db uid limit →
        rec.wasSuccessful = true)
    ∧ (∀ db uid rec, lastTurnRecord db uid = some rec →
        rec.wasSuccessful = true)
    ∧ (∀ db uid limit rec, rec.wasSuccessful = false →
        rec ∉ recentWindowRecords db uid limit
        ∧ lastTurnRecord db uid ≠ some rec) := by
  have hstep : (if (chainIntent c query).personalInfo.isEmpty then Except.ok ()
      else c.updateUserMemory) = Except.ok () := by
    rcases hm with hm | hm
    · rw [if_pos]
      rw [hm]
      rfl
    · split_ifs <;> simp [hm]
  have hwin : ∀ db uid limit rec, rec ∈ recentWindowRecords db uid limit →
      rec.wasSuccessful = true := by
    intro db uid limit rec h
    unfold recentWindowRecords at h
    rw [List.mem_reverse] at h
    have h2 := List.take_subset limit _ h
    rw [List.mem_reverse] at h2
    unfold successTurns at h2
    have h3 := (List.mem_filter.mp h2).2
    simp only [Bool.and_eq_true] at h3
    exact h3.2
  have hlast : ∀ db uid rec, lastTurnRecord db uid = some rec →
      rec.wasSuccessful = true := by
    intro db uid rec h
    unfold lastTurnRecord at h
    obtain ⟨ys, hys⟩ := List.getLast?_eq_some_iff.mp h
    have h2 : rec ∈ successTurns db uid := by
      rw [hys]
      simp
    unfold successTurns at h2
    have h3 := (List.mem_filter.mp h2).2
    simp only [Bool.and_eq_true] at h3
    exact h3.2
  refine ⟨?_, ?_, hwin, hlast, ?_⟩
  · unfold runChain
    dsimp only
    rw [hstep, hu]
    dsimp only
    rw [if_neg hint, hr]
    dsimp only
    rw [hhc]
    split_ifs <;> simp_all
  · refine ⟨⟨fallbackAnswer, [], true, str "No relevant information found",
      (chainIntent c query).intent, str "high", true, [str "no_documents"]⟩, ?_, rfl⟩
    unfold runChain
    dsimp only
    rw [hstep, hu]
    dsimp only
    rw [if_neg hint, hr]
    dsimp only
    rw [hhc]
    rfl
  · intro db uid limit rec hfail
    constructor
    · intro hmem
      rw [hwin db uid limit rec hmem] at hfail
      exact Bool.true_eq_false.mp hfail
    · intro heq
      rw [hlast db uid rec heq] at hfail
      exact Bool.true_eq_false.mp hfail

/-- Witness for C10: a concrete no-material run saves an unsuccessful turn
yet reports success, and a concrete failed record is invisible to both
history reads. -/
theorem fallback_turn_invisible_witness :
    Call.save false
      ∈ (runChain
          ⟨[], none, none, Except.ok (), Except.ok [],
           fun _ => Except.ok ([], []),
           fun _ _ => Except.ok ⟨some (str "unused"), some true, some (str "ok")⟩⟩
          (str "anything new")).1
    ∧ ((⟨7, str "q", str "a", [], false⟩ : ChatRecord)
          ∉ recentWindowRecords [⟨7, str "q", str "a", [], false⟩] 7 15
       ∧ lastTurnRecord [⟨7, str "q", str "a", [], false⟩] 7
          ≠ some ⟨7, str "q", str "a", [], false⟩) :=
  ⟨(fallback_turn_invisible _ (str "anything new") [] []
      (by decide) (Or.inl (by decide)) (by decide) (by decide) (by decide)).1,
   (fallback_turn_invisible
      ⟨[], none, none, Except.ok (), Except.ok [],
       fun _ => Except.ok ([], []),
       fun _ _ => Except.ok ⟨some (str "unused"), some true, some (str "ok")⟩⟩
      (str "anything new") [] []
      (by decide) (Or.inl (by decide)) (by decide) (by decide) (by decide)).2.2.2.2
      [⟨7, str "q", str "a", [], false⟩] 7 15 ⟨7, str "q", str "a", [], false⟩ rfl⟩

/-! ## C6: the keyword-fallback scoring formula -/

theorem sum_count_eq_countP (s : Finset Str) (l : List Str) :
    (∑ t ∈ s, l.count t) = l.countP (fun t => decide (t ∈ s)) := by
  induction l with
  | nil => simp
  | cons a l ih =>
    rw [List.countP_cons]
    have hstep : ∀ t ∈ s, List.count t (a :: l)
        = List.count t l + if t = a then 1 else 0 := by
      intro t _
      rw [List.count_cons]
      by_cases hat : t = a
      · subst hat
        simp
      · rw [if_neg hat, if_neg (show ¬ ((a == t) = true) from by
          simp only [beq_iff_eq]
          exact fun hcon => hat hcon.symm)]
    rw [Finset.sum_congr rfl hstep, Finset.sum_add_distrib, ih,
      Finset.sum_ite_eq' s a (fun _ => 1)]
    simp

/-- C6: the keyword fallback scorer is a pure function (hence
deterministic) and its value is exactly 0.6 times the Jaccard similarity
of the lowercase word-token sets plus 0.4 times the term-frequency score
(occurrences of query tokens in the candidate over the candidate token
count), as the specification states. -/
theorem scoreKeyword_spec (q c : Str) :
    scoreKeyword q c = 3/5 * jaccardSpec q c + 2/5 * termFrequencySpec q c := by
  unfold scoreKeyword jaccardSpec termFrequencySpec
  by_cases hq : tokenSet q = ∅
  · rw [if_pos hq, hq]
    have hcp : List.countP (fun t => decide (t ∈ (∅ : Finset Str))) (pyTokenize c) = 0 := by
      rw [List.countP_eq_zero]
      intro a _
      simp
    rw [hcp, Finset.empty_inter, Finset.card_empty, Nat.cast_zero, zero_div,
      mul_zero, zero_div, mul_zero, add_zero]
  · rw [if_neg hq]
    dsimp only
    have hcs : (pyTokenize c).toFinset = tokenSet c := rfl
    rw [hcs]
    have hunion : ¬ tokenSet q ∪ tokenSet c = ∅ := by
      intro hcon
      exact hq (Finset.union_eq_empty.mp hcon).1
    rw [if_neg hunion]
    have h610 : (6/10 : ℚ) = 3/5 := by norm_num
    have h410 : (4/10 : ℚ) = 2/5 := by norm_num
    rw [h610, h410, sum_count_eq_countP]
    by_cases hlen : (pyTokenize c).length = 0
    · have hnil : pyTokenize c = [] := List.length_eq_zero.mp hlen
      rw [hnil]
      simp
    · have hmax : max (pyTokenize c).length 1 = (pyTokenize c).length :=
        max_eq_left (by omega)
      rw [hmax]

/-! ## C5: reranker contract -/

theorem lexLt_le {a b : ℕ × ℚ} (h : lexLt a b) : b.2 ≤ a.2 := by
  rcases h with h | ⟨h, _⟩
  · exact le_of_lt h
  · exact le_of_eq h.symm

theorem orderedInsert_lex (a : ℕ × ℚ) (l : List (ℕ × ℚ))
    (hl : l.Pairwise lexLt) (ha : ∀ b ∈ l, a.1 < b.1) :
    (l.orderedInsert (fun x y => y.2 ≤ x.2) a).Pairwise lexLt := by
  induction l with
  | nil => simp [List.orderedInsert, lexLt]
  | cons b t ih =>
    rcases List.pairwise_cons.mp hl with ⟨hb, ht⟩
    rw [List.orderedInsert]
    split_ifs with h
    · refine List.pairwise_cons.mpr ⟨?_, hl⟩
      intro x hx
      rcases List.mem_cons.mp hx with rfl | hxt
      · rcases lt_or_eq_of_le h with hlt | heq
        · exact Or.inl hlt
        · exact Or.inr ⟨heq.symm, ha x (List.mem_cons_self x t)⟩
      · have hxb : x.2 ≤ b.2 := lexLt_le (hb x hxt)
        rcases lt_or_eq_of_le (le_trans hxb h) with hlt | heq
        · exact Or.inl hlt
        · exact Or.inr ⟨heq.symm, ha x (List.mem_cons_of_mem b hxt)⟩
    · refine List.pairwise_cons.mpr
        ⟨?_, ih ht (fun x hx => ha x (List.mem_cons_of_mem b hx))⟩
      intro x hx
      rcases (List.mem_orderedInsert _).mp hx with rfl | hxt
      · exact Or.inl (not_le.mp h)
      · exact hb x hxt

theorem insertionSort_lex (l : List (ℕ × ℚ))
    (h : l.Pairwise (fun a b => a.1 < b.1)) :
    (l.insertionSort (fun x y => y.2 ≤ x.2)).Pairwise lexLt := by
  induction l with
  | nil => simp [List.insertionSort]
  | cons a t ih =>
    rcases List.pairwise_cons.mp h with ⟨ha, ht⟩
    rw [List.insertionSort]
    exact orderedInsert_lex a _ (ih ht)
      (fun b hb => ha b ((List.mem_insertionSort _).mp hb))

theorem pySortDesc_lex (l : List (ℕ × ℚ))
    (h : l.Pairwise (fun a b => a.1 < b.1)) :
    (pySortDesc l).Pairwise lexLt :=
  insertionSort_lex l h

theorem enumScored_pairwise (score : ℕ → ℚ) (n : ℕ) :
    (enumScored score n).Pairwise (fun a b => a.1 < b.1) := by
  unfold enumScored
  exact List.Pairwise.map _ (fun a b hab => hab) (List.pairwise_lt_range n)

theorem length_pySortDesc_enum (score : ℕ → ℚ) (n : ℕ) :
    (pySortDesc (enumScored score n)).length = n := by
  unfold pySortDesc enumScored
  rw [List.length_insertionSort, List.length_map, List.length_range]

theorem mem_pySortDesc_enum {score : ℕ → ℚ} {n j : ℕ} (hj : j < n) :
    (j, score j) ∈ pySortDesc (enumScored score n) := by
  unfold pySortDesc enumScored
  rw [List.mem_insertionSort]
  exact List.mem_map.mpr ⟨j, List.mem_range.mpr hj, rfl⟩

theorem topPairs_cross (score : ℕ → ℚ) (n topN : ℕ) :
    ∀ x ∈ topPairs score n topN,
      ∀ y ∈ (pySortDesc (enumScored score n)).drop topN, lexLt x y := by
  have hS := pySortDesc_lex (enumScored score n) (enumScored_pairwise score n)
  rw [← List.take_append_drop topN (pySortDesc (enumScored score n))] at hS
  exact (List.pairwise_append.mp hS).2.2

theorem unreturned_le (score : ℕ → ℚ) (n topN j : ℕ)
    (hj : j < n) (hnot : j ∉ topIdxOf score n topN) :
    ∀ p ∈ topPairs score n topN, score j ≤ p.2 := by
  intro p hp
  have hmem : (j, score j) ∈ pySortDesc (enumScored score n) :=
    mem_pySortDesc_enum hj
  rw [← List.take_append_drop topN (pySortDesc (enumScored score n))] at hmem
  rcases List.mem_append.mp hmem with h1 | h2
  · exact absurd (List.mem_map.mpr ⟨(j, score j), h1, rfl⟩) hnot
  · exact lexLt_le (topPairs_cross score n topN p hp (j, score j) h2)

/-- C5: with at most `outputSize` candidates (including none) `rerank`
returns the candidates unchanged, each with the neutral maximal score 1;
with more candidates it returns exactly `outputSize` items — the chunks and
scores of the stably sorted top pairs — with scores in descending order,
every returned score at least every unreturned candidate score, and ties
ordered by original candidate position. -/
theorem rerank_contract (query : Str) (chunks : List Str) (topN : ℕ) :
    (chunks.length ≤ topN →
      rerankKeyword query chunks topN
        = ⟨chunks, List.replicate chunks.length 1⟩)
    ∧ (topN < chunks.length →
        (rerankKeyword query chunks topN).rankedChunks
          = (topPairs (kwScore query chunks) chunks.length topN).map
              (fun p => chunks.getD p.1 [])
        ∧ (rerankKeyword query chunks topN).scores
          = (topPairs (kwScore query chunks) chunks.length topN).map
              (fun p => p.2)
        ∧ (rerankKeyword query chunks topN).rankedChunks.length = topN
        ∧ (rerankKeyword query chunks topN).scores.Pairwise (fun a b => b ≤ a)
        ∧ (∀ j, j < chunks.length →
            j ∉ topIdxOf (kwScore query chunks) chunks.length topN →
            ∀ s ∈ (rerankKeyword query chunks topN).scores,
              kwScore query chunks j ≤ s)
        ∧ (topPairs (kwScore query chunks) chunks.length topN).Pairwise
            (fun a b => a.2 = b.2 → a.1 < b.1)) := by
  constructor
  · intro hle
    unfold rerankKeyword rerankWith
    by_cases hemp : chunks.isEmpty
    · rw [if_pos hemp]
      have hnil : chunks = [] := List.isEmpty_iff.mp hemp
      subst hnil
      rfl
    · rw [if_neg hemp, if_pos hle]
  · intro hlt
    have hemp : ¬ chunks.isEmpty = true := by
      intro hcon
      rw [List.isEmpty_iff] at hcon
      subst hcon
      simp at hlt
    have hnle : ¬ chunks.length ≤ topN := not_le.mpr hlt
    have hred : rerankKeyword query chunks topN
        = ⟨(topPairs (kwScore query chunks) chunks.length topN).map
             (fun p => chunks.getD p.1 []),
           (topPairs (kwScore query chunks) chunks.length topN).map
             (fun p => p.2)⟩ := by
      unfold rerankKeyword rerankWith
      rw [if_neg hemp, if_neg hnle]
    have htoplex : (topPairs (kwScore query chunks) chunks.length topN).Pairwise lexLt :=
      List.Pairwise.sublist (List.take_sublist _ _)
        (pySortDesc_lex _ (enumScored_pairwise (kwScore query chunks) chunks.length))
    refine ⟨by rw [hred], by rw [hred], ?_, ?_, ?_, ?_⟩
    · rw [hred]
      dsimp only
      rw [List.length_map]
      unfold topPairs
      rw [List.length_take, length_pySortDesc_enum]
      exact min_eq_left (le_of_lt hlt)
    · rw [hred]
      dsimp only
      rw [List.pairwise_map]
      exact htoplex.imp (fun hab => lexLt_le hab)
    · intro j hj hnot s hs
      rw [hred] at hs
      dsimp only at hs
      rcases List.mem_map.mp hs with ⟨p, hp, rfl⟩
      exact unreturned_le (kwScore query chunks) chunks.length topN j hj hnot p hp
    · refine htoplex.imp ?_
      intro a b hab heq
      rcases hab with hlt2 | ⟨_, hidx⟩
      · rw [heq] at hlt2
        exact absurd hlt2 (lt_irrefl _)
      · exact hidx

/-- Witness for C5: a one-element list passes through unchanged with the
neutral score, and a four-candidate list trimmed to three returns exactly
three chunks with descending scores. -/
theorem rerank_contract_witness :
    rerankKeyword (str "alpha beta") [str "x"] 3
      = ⟨[str "x"], List.replicate 1 1⟩
    ∧ (rerankKeyword (str "alpha beta")
        [str "noise", str "alpha beta", str "alpha", str "gamma"] 3).rankedChunks.length = 3
    ∧ (rerankKeyword (str "alpha beta")
        [str "noise", str "alpha beta", str "alpha", str "gamma"] 3).scores.Pairwise
        (fun a b => b ≤ a) :=
  ⟨(rerank_contract (str "alpha beta") [str "x"] 3).1 (by decide),
   ((rerank_contract (str "alpha beta")
      [str "noise", str "alpha beta", str "alpha", str "gamma"] 3).2
      (by decide)).2.2.1,
   ((rerank_contract (str "alpha beta")
      [str "noise", str "alpha beta", str "alpha", str "gamma"] 3).2
      (by decide)).2.2.2.1⟩

end PolicyPilot
